import Mathlib

/-!
Verification of the OpenLUR cross-validation engine against its
natural-language specification.  The definitions below are a shallow
embedding of the three source files:

* `src/LUR_osm/hoek.py` — greedy forward feature selection
  (`Regressor.fit`, `predict`, `score`, `adj_score`, `adjust_Rsq`);
* `src/RF_randomsearch.py` — time-bounded random hyperparameter search
  (`randomSearchFold`, module global `refit`, `main`);
* `src/Hasenfratz/Hasenfratz_r_parallel.py` — GAM fold metrics
  (`calculate_gam`'s RMSE and factor-of-2 computations).

Numeric values are embedded as exact rationals (`ℚ`); missing values
(pandas NaN) are embedded as `Option ℚ` with `none` for NaN.  External
library calls (sklearn's `LinearRegression`, `RandomForestRegressor`)
are abstracted as function parameters: a score oracle giving the
in-sample R² of a linear fit on a feature subset, a fitted row
predictor, a candidate stream for the random search.
-/

/-- Python `max(scores)` for a nonempty list split as head and tail. -/
def listMax (a : ℚ) (l : List ℚ) : ℚ := l.foldl max a

/-- Python `scores.index(v)`: index of the first occurrence of `v`. -/
def idxOfFirst (v : ℚ) : List ℚ → ℕ
  | [] => 0
  | x :: xs => if x = v then 0 else idxOfFirst v xs + 1

/-- Failure mode of `Regressor.fit` in `hoek.py`: when the loop body runs
with `features_to_test` empty, Python's `max(scores)` raises
`ValueError: max() arg is an empty sequence`. -/
inductive FitError where
  | maxOfEmptySequence
deriving DecidableEq

/-- The `while dr2 > 0.01` loop of `Regressor.fit` (hoek.py lines 30-49).

State: `ftt` is `features_to_test`, `chosen` is `chosen_features`,
`r2prev` is `r2prev`.  Each round scores every candidate extension
`chosen ++ [g]` with the oracle `score` (the in-sample R² of a linear
fit on those columns), takes the maximum `r2`, and either appends the
first argmax feature and continues (`dr2 > 0.01`) or stops.  The first
component of the result is the trace of successive `r2prev` values
assigned by `r2prev = r2`; the second is the final `chosen_features`
and R², or the error raised.

The `fuel` argument equals the length of `ftt` at every call reachable
from `Regressor_fit` (each round removes exactly one feature), so the
`(0, _ :: _)` equation is unreachable from there; it only makes the
recursion structural. -/
def fitGo (score : List ℕ → ℚ) : ℕ → List ℕ → List ℕ → ℚ →
    List ℚ × Except FitError (List ℕ × ℚ)
  | _, [], _, _ => ([], Except.error FitError.maxOfEmptySequence)
  | 0, _ :: _, _, _ => ([], Except.error FitError.maxOfEmptySequence)
  | fuel + 1, f :: fs, chosen, r2prev =>
    let scores := (f :: fs).map fun g => score (chosen ++ [g])
    let r2 := listMax (score (chosen ++ [f])) (fs.map fun g => score (chosen ++ [g]))
    if 1/100 < r2 - r2prev then
      let idx := idxOfFirst r2 scores
      let rest := fitGo score fuel ((f :: fs).eraseIdx idx)
        (chosen ++ [(f :: fs).getD idx 0]) r2
      (r2 :: rest.1, rest.2)
    else
      ([r2], Except.ok (chosen, r2))

/-- A fitted `Regressor` from hoek.py: `total_features = X_train.shape[1]`,
`features = chosen_features`, and `regressionModel` the row predictor of
the final `LinearRegression` fit on the chosen columns (abstract). -/
structure RegModel where
  total_features : ℕ
  features : List ℕ
  regressionModel : List ℚ → ℚ

/-- `Regressor.fit(X_train, y_train)`: run the greedy selection loop on
all of `X_train`'s columns (`total = X_train.shape[1]`, candidates
`range total`, `r2prev = 0.0`, initial `dr2 = 100.0 > 0.01` so the first
round always runs), then fit the final linear model on the chosen
columns; `lrFit feats` abstracts `LinearRegression().fit(X[:, feats], y)`
as the resulting row predictor. -/
def Regressor_fit (score : List ℕ → ℚ) (lrFit : List ℕ → List ℚ → ℚ)
    (total : ℕ) : Except FitError RegModel :=
  match (fitGo score total (List.range total) [] 0).2 with
  | Except.error e => Except.error e
  | Except.ok (chosen, _) => Except.ok ⟨total, chosen, lrFit chosen⟩

/-- The final `chosen_features` of a `Regressor.fit` run. -/
def fit_chosen_features (score : List ℕ → ℚ) (total : ℕ) :
    Except FitError (List ℕ) :=
  ((fitGo score total (List.range total) [] 0).2).map Prod.fst

/-- A numeric matrix: rows of rationals plus its numpy `shape[1]`. -/
structure Mat where
  rows : List (List ℚ)
  ncols : ℕ

/-- Numpy column selection `row[feats]` for one row: `X[:, feats]`. -/
def projectRow (feats : List ℕ) (row : List ℚ) : List ℚ :=
  feats.map fun i => row.getD i 0

/-- `Regressor.predict(X)` (hoek.py lines 60-65): if `X.shape[1]` equals
`total_features` project `X` onto the chosen columns, else use `X`
directly; then predict with the underlying linear model. -/
def RegModel.predict (m : RegModel) (X : Mat) : List ℚ :=
  let X_predict :=
    if X.ncols = m.total_features then X.rows.map (projectRow m.features)
    else X.rows
  X_predict.map m.regressionModel

/-- Arithmetic mean, `np.mean` (the numpy NaN on an empty input is out of
scope here; in `ℚ` the empty case yields `0/0 = 0`). -/
def mean (l : List ℚ) : ℚ := l.foldl (· + ·) 0 / (l.length : ℚ)

/-- sklearn's `r2_score(y_true, y_pred) = 1 - SS_res / SS_tot`. -/
def r2score (y_true y_pred : List ℚ) : ℚ :=
  let ybar := mean y_true
  1 - (List.zipWith (fun a b => (a - b) ^ 2) y_true y_pred).foldl (· + ·) 0 /
    ((y_true.map fun a => (a - ybar) ^ 2).foldl (· + ·) 0)

/-- `Regressor.score(X, y)` (hoek.py lines 67-72): same projection rule as
`predict`, then the underlying model's R² on `(X_predict, y)`. -/
def RegModel.score (m : RegModel) (X : Mat) (y : List ℚ) : ℚ :=
  let X_predict :=
    if X.ncols = m.total_features then X.rows.map (projectRow m.features)
    else X.rows
  r2score y (X_predict.map m.regressionModel)

/-- `Regressor.adj_score(X, y)` (hoek.py lines 74-81): the plain score,
adjusted with `n = y.shape[0]` and `p = len(self.features)`. -/
def RegModel.adj_score (m : RegModel) (X : Mat) (y : List ℚ) : ℚ :=
  let X_predict :=
    if X.ncols = m.total_features then X.rows.map (projectRow m.features)
    else X.rows
  let score := r2score y (X_predict.map m.regressionModel)
  1 - ((1 - score) * ((y.length : ℚ) - 1)) /
    ((y.length : ℚ) - (m.features.length : ℚ) - 1)

/-- Module-level `adjust_Rsq(model, X_test, y_test)` (hoek.py lines
161-167).  `modelScore` abstracts `model.score(X_test, y_test)`; the
`try` branch uses `len(model.features)` and the `except` branch (taken
when the model has no usable `features` attribute, embedded as `none`)
falls back to `X_test.shape[1]`. -/
def adjust_Rsq (modelScore : ℚ) (n : ℕ) (modelFeatures : Option ℕ)
    (ncolsX : ℕ) : ℚ :=
  match modelFeatures with
  | some p => 1 - ((1 - modelScore) * ((n : ℚ) - 1)) / ((n : ℚ) - (p : ℚ) - 1)
  | none => 1 - ((1 - modelScore) * ((n : ℚ) - 1)) / ((n : ℚ) - (ncolsX : ℚ) - 1)

/-- Failure modes of `randomSearchFold` in `RF_randomsearch.py`.
`attributeErrorNone` is what the code actually raises when `bestModel`
is still `None` after the loop (`bestModel.fit`, `bestModel.get_params()`
or `bestModel.predict` on `None`).  `noCandidateError` is modelled from
the spec: the spec's §4.4/§7 posit a `NoCandidateError` class for budget
exhaustion, but no such class exists anywhere in the source; the
constructor is declared only so the spec's claim about it can be stated
and compared with what the code does. -/
inductive PyError where
  | attributeErrorNone
  | noCandidateError
deriving DecidableEq

/-- One candidate of `randomSearchSingle`: the fitted random-forest model
(abstract, of type `M`) and its validation RMSE `score`. -/
structure Candidate (M : Type) where
  model : M
  score : ℚ
deriving DecidableEq

/-- One iteration of the `while` loop body (RF_randomsearch.py lines
77-83): `numModels += 1`, then keep the candidate only on a strictly
smaller score. -/
def searchStep {M : Type} (st : Option M × ℚ × ℕ) (c : Candidate M) :
    Option M × ℚ × ℕ :=
  if c.score < st.2.1 then (some c.model, c.score, st.2.2 + 1)
  else (st.1, st.2.1, st.2.2 + 1)

/-- The whole search loop over the candidates that got evaluated, from the
initial state `bestModel = None`, `bestScore = 1000000`, `numModels = 0`. -/
def searchLoop {M : Type} (cands : List (Candidate M)) : Option M × ℚ × ℕ :=
  cands.foldl searchStep (none, 1000000, 0)

/-- The candidates the `while (time.time() - starttime) < maxtime` loop
evaluates.  `trace` pairs each prospective iteration with the elapsed
monotonic-clock reading observed at the loop condition; the loop runs
exactly the longest prefix whose readings are below the budget. -/
def evaluatedWithin {M : Type} (maxtime : ℚ) (trace : List (ℚ × Candidate M)) :
    List (Candidate M) :=
  (trace.takeWhile fun p => decide (p.1 < maxtime)).map Prod.snd

/-- `randomSearchFold` (RF_randomsearch.py lines 58-95) after the
train/validation split.  `refitFlag` is the value of the module global
`refit` as read inside the function; `refitted m` abstracts
`bestModel.fit(X_search, y_search)` (the refit on the full search +
validation rows); `testMetrics m` abstracts the pair
`(rmse, r2)` computed from `m.predict(X_test)` against `y_test`.
When the loop ends with `bestModel` still `None`, the Python code
raises `AttributeError` on `None` (at `bestModel.fit` when `refit` is
set, otherwise at `bestModel.get_params()`, before
`bestModel.predict`); all of these are the single `attributeErrorNone`
outcome here. -/
def randomSearchFold {M : Type} (refitFlag : Bool) (maxtime : ℚ)
    (trace : List (ℚ × Candidate M)) (refitted : M → M)
    (testMetrics : M → ℚ × ℚ) : Except PyError (ℚ × ℚ) :=
  let cands := evaluatedWithin maxtime trace
  let st := searchLoop cands
  match st.1 with
  | none => Except.error PyError.attributeErrorNone
  | some m =>
    let m2 := if refitFlag then refitted m else m
    Except.ok (testMetrics m2)

/-- The module-level global `refit` of RF_randomsearch.py (lines 36-37),
initialized to `False` at import time. -/
def refit : Bool := false

/-- The value bound by `refit = args.refit` inside `main` (line 111).
Because `main` contains no `global refit` declaration, this assignment
creates a function-local variable. -/
def mainLocalRefit (argsRefit : Bool) : Bool := argsRefit

/-- The value of the module-level global `refit` after `main` has parsed
its arguments: unchanged, because `main`'s `refit = args.refit` binds a
local name (no `global refit` declaration), so the global keeps its
import-time value `False` regardless of the `-r` flag.  The pool's
worker processes therefore also see `False`. -/
def refitAfterMain (_argsRefit : Bool) : Bool := refit

/-- A fold evaluation as dispatched by `main`: `randomSearchFold` reads
the module global `refit`, whose value after argument parsing is
`refitAfterMain args.refit`. -/
def foldAfterMain {M : Type} (argsRefit : Bool) (maxtime : ℚ)
    (trace : List (ℚ × Candidate M)) (refitted : M → M)
    (testMetrics : M → ℚ × ℚ) : Except PyError (ℚ × ℚ) :=
  randomSearchFold (refitAfterMain argsRefit) maxtime trace refitted testMetrics

/-- A merged test row of `calculate_gam`: the `pm_measurement` and
`prediction` cells, with `none` embedding NaN. -/
def validPair (r : Option ℚ × Option ℚ) : Bool :=
  r.1.isSome && r.2.isSome

/-- The `error_model` series after `.dropna()` (Hasenfratz lines 51-54):
`measurement - prediction` for every row where both are present; pandas
propagates NaN through the subtraction and `dropna` removes those rows. -/
def error_model (rows : List (Option ℚ × Option ℚ)) : List ℚ :=
  rows.filterMap fun r =>
    match r.1, r.2 with
    | some m, some p => some (m - p)
    | _, _ => none

/-- The squared RMSE of the fold, `mean(error_model ** 2)` (line 56 holds
`np.sqrt` of this; the square root is irrelevant to row exclusion). -/
def rmseSq (rows : List (Option ℚ × Option ℚ)) : ℚ :=
  mean ((error_model rows).map fun e => e ^ 2)

/-- Whether a row survives the factor-of-2 filter
`fac2_ind[(fac2_ind <= 2) & (fac2_ind >= 0.5)].dropna()` (lines 61-63):
the ratio `measurement / prediction` must exist and lie in `[1/2, 2]`.
In pandas a NaN cell makes the ratio NaN and a zero prediction makes it
`±inf` (or NaN for `0/0`); none of those pass the interval comparison,
which matches `ℚ`'s `m / 0 = 0` also failing `1/2 ≤ m / p`. -/
def fac2keep (meas pred : Option ℚ) : Bool :=
  match meas, pred with
  | some m, some p => if p ≠ 0 ∧ 1/2 ≤ m / p ∧ m / p ≤ 2 then true else false
  | _, _ => false

/-- The fold's factor-of-2 percentage (line 64): surviving rows divided by
`len(test_measure_predict['pm_measurement'])` — the count of ALL merged
rows — times 100. -/
def fac2 (rows : List (Option ℚ × Option ℚ)) : ℚ :=
  ((rows.filter fun r => fac2keep r.1 r.2).length : ℚ) / (rows.length : ℚ) * 100

/-- Modelled from the spec: the factor-of-2 percentage with rows whose
measurement-vs-prediction pair is missing excluded from BOTH the
numerator and the denominator, as the claim about row-wise NaN exclusion
describes.  Declared only for comparison with the source's `fac2`. -/
def fac2_rowExcluded (rows : List (Option ℚ × Option ℚ)) : ℚ :=
  fac2 (rows.filter validPair)

/-- Score oracle realizing the scenario of the spec's greedy-selection
test property: feature A (= 0) alone scores 1/2, adding B (= 1) scores
13/25 = 0.52, adding C (= 2) scores 53/100 = 0.53, every other subset
scores worse. -/
def oracleC4 : List ℕ → ℚ := fun l =>
  if l = [0] then 1/2
  else if l = [1] then 3/10
  else if l = [2] then 1/5
  else if l = [0, 1] then 13/25
  else if l = [0, 2] then 2/5
  else if l = [0, 1, 2] then 53/100
  else 0

/-- A concrete abstract linear-fit predictor used to instantiate fitted
models in witnesses: the fitted model sums the entries of its input row. -/
def lrSum : List ℕ → List ℚ → ℚ := fun _ row => row.foldl (· + ·) 0

/-! Helper lemmas about `listMax` and `idxOfFirst`. -/

theorem self_le_listMax : ∀ (l : List ℚ) (a : ℚ), a ≤ listMax a l
  | [], _ => le_refl _
  | x :: xs, a => le_trans (le_max_left a x) (self_le_listMax xs (max a x))

theorem listMax_mem : ∀ (l : List ℚ) (a : ℚ), listMax a l = a ∨ listMax a l ∈ l := by
  intro l
  induction l with
  | nil => intro a; exact Or.inl rfl
  | cons x xs ih =>
    intro a
    rcases ih (max a x) with h | h
    · rcases max_choice a x with hm | hm
      · exact Or.inl (by rw [listMax, List.foldl_cons, ← listMax, h, hm])
      · exact Or.inr (by rw [listMax, List.foldl_cons, ← listMax, h, hm]; exact List.mem_cons_self x xs)
    · exact Or.inr (List.mem_cons_of_mem x (by rw [listMax, List.foldl_cons, ← listMax]; exact h))

theorem idxOfFirst_lt_length (v : ℚ) :
    ∀ (l : List ℚ), v ∈ l → idxOfFirst v l < l.length := by
  intro l
  induction l with
  | nil => intro h; cases h
  | cons x xs ih =>
    intro h
    by_cases hx : x = v
    · simp [idxOfFirst, hx]
    · have hv : v ∈ xs := by
        rcases List.mem_cons.mp h with h1 | h1
        · exact absurd h1.symm hx
        · exact h1
      simpa [idxOfFirst, hx] using ih hv

theorem idxOfFirst_map_spec (g : ℕ → ℚ) (v : ℚ) :
    ∀ (ftt : List ℕ), v ∈ ftt.map g →
      g (ftt.getD (idxOfFirst v (ftt.map g)) 0) = v := by
  intro ftt
  induction ftt with
  | nil => intro h; cases h
  | cons f fs ih =>
    intro h
    rw [List.map_cons] at h
    by_cases hf : g f = v
    · simp [idxOfFirst, hf]
    · have hv : v ∈ fs.map g := by
        rcases List.mem_cons.mp h with h1 | h1
        · exact absurd h1.symm hf
        · exact h1
      simpa [idxOfFirst, hf] using ih hv

/-- Concrete evaluation of the greedy loop on the three-feature scenario
oracle: round 1 picks feature 0 (R² 1/2), round 2 picks feature 1
(R² 13/25, improvement 1/50 > 1/100), round 3 scores 53/100
(improvement exactly 1/100, not greater), so the loop stops with
`chosen_features = [0, 1]`. -/
theorem fitGo_oracleC4_eval : fitGo oracleC4 3 (List.range 3) [] 0 =
    ([1/2, 13/25, 53/100], Except.ok ([0, 1], 53/100)) := by
  have hr : List.range 3 = [0, 1, 2] := by decide
  rw [hr]
  norm_num [fitGo, oracleC4, listMax, idxOfFirst, max_def, List.cons_ne_nil]

/-- C4: on a 3-feature training set where feature A alone gives R² = 0.50,
{A,B} gives 0.52 and {A,B,C} gives 0.53, the greedy fit adds A, adds B
(improvement 0.02 > 0.01), then stops without adding C (improvement 0.01
is not > 0.01); the chosen feature subset is exactly {A, B} = [0, 1]. -/
theorem greedy_fit_chooses_AB :
    fit_chosen_features oracleC4 3 = Except.ok [0, 1] ∧
    fitGo oracleC4 3 (List.range 3) [] 0 =
      ([1/2, 13/25, 53/100], Except.ok ([0, 1], 53/100)) := by
  refine ⟨?_, fitGo_oracleC4_eval⟩
  rw [fit_chosen_features, fitGo_oracleC4_eval]
  rfl

/-- C2 (failing input): on a training set with a single feature whose
linear fit has in-sample R² = 1 (score oracle constantly 1), the greedy
loop consumes the feature (improvement 1 > 0.01), re-enters the loop
with `features_to_test` empty because `dr2 > 0.01` still holds, and
Python's `max([])` raises `ValueError` instead of completing the fit. -/
theorem fit_exhaustion_raises :
    fitGo (fun _ => (1:ℚ)) 1 [0] [] 0 = ([1], Except.error FitError.maxOfEmptySequence) := by
  norm_num [fitGo, listMax, idxOfFirst]

/-- C1 (failing input): with `-r` passed (`args.refit = true`), the module
global `refit` read by the fold evaluation is still `false`, so the fold
returns the metrics of the model fit during the search loop (here
`(2, 2)`), not the metrics a refitting fold would produce (here
`(1, 1)`).  The model type is `Bool` recording whether the refit
happened; the single candidate completes within the budget. -/
theorem refit_flag_not_threaded :
    refitAfterMain true = false ∧
    foldAfterMain (M := Bool) true 10 [((0:ℚ), ⟨false, 5⟩)] (fun _ => true)
      (fun m => if m then (1, 1) else (2, 2)) = Except.ok ((2:ℚ), (2:ℚ)) ∧
    randomSearchFold (M := Bool) true 10 [((0:ℚ), ⟨false, 5⟩)] (fun _ => true)
      (fun m => if m then (1, 1) else (2, 2)) = Except.ok ((1:ℚ), (1:ℚ)) := by
  refine ⟨rfl, ?_, ?_⟩ <;>
    norm_num [foldAfterMain, refitAfterMain, refit, randomSearchFold, evaluatedWithin,
      searchLoop, searchStep, List.takeWhile]

/-- C3 (counterexample): with a zero budget no candidate is evaluated
(the elapsed clock is never below 0), and the fold evaluation fails with
the AttributeError on the `None` best model — not with the
`NoCandidateError` the claim names, which the code never defines nor
raises. -/
theorem zero_budget_not_noCandidateError :
    randomSearchFold (M := Unit) false 0 [((0:ℚ), ⟨(), 5⟩)] id (fun _ => (1, 1)) =
      Except.error PyError.attributeErrorNone ∧
    randomSearchFold (M := Unit) false 0 [((0:ℚ), ⟨(), 5⟩)] id (fun _ => (1, 1)) ≠
      Except.error PyError.noCandidateError := by
  have h : randomSearchFold (M := Unit) false 0 [((0:ℚ), ⟨(), 5⟩)] id (fun _ => (1, 1)) =
      Except.error PyError.attributeErrorNone := by
    norm_num [randomSearchFold, evaluatedWithin, searchLoop, searchStep, List.takeWhile]
  refine ⟨h, ?_⟩
  rw [h]
  intro hcontra
  injection hcontra with h2
  cases h2

/-- C6: `adj_score` computes `1 - (1 - R²)(n - 1)/(n - p - 1)` with `R²`
the plain `score` on the same `(X, y)`, `n = y.shape[0]` and `p` the
number of chosen features; the module-level `adjust_Rsq` uses the same
formula and falls back to `p = X_test.shape[1]` when the model's chosen
features are unavailable; at `n = 100`, `p = 5`, `R² = 4/5` the value is
`371/470`, within `1/1000` of `0.789`. -/
theorem adjusted_r2_formula :
    (∀ (m : RegModel) (X : Mat) (y : List ℚ),
      m.adj_score X y =
        1 - ((1 - m.score X y) * ((y.length : ℚ) - 1)) /
          ((y.length : ℚ) - (m.features.length : ℚ) - 1)) ∧
    (∀ (r2 : ℚ) (n p x : ℕ), adjust_Rsq r2 n (some p) x =
      1 - ((1 - r2) * ((n : ℚ) - 1)) / ((n : ℚ) - (p : ℚ) - 1)) ∧
    (∀ (r2 : ℚ) (n x : ℕ), adjust_Rsq r2 n none x =
      1 - ((1 - r2) * ((n : ℚ) - 1)) / ((n : ℚ) - (x : ℚ) - 1)) ∧
    adjust_Rsq (4/5) 100 (some 5) 18 = 371/470 ∧
    |(371/470 : ℚ) - 789/1000| < 1/1000 := by
  refine ⟨fun m X y => rfl, fun r2 n p x => rfl, fun r2 n x => rfl, ?_, ?_⟩
  · norm_num [adjust_Rsq]
  · rw [abs_sub_comm]
    norm_num [abs_of_nonneg]

/-- C9 (counterexample): a fold with one valid row (ratio 1, inside the
factor-2 band) and one NaN-measurement row has `fac2 = 50`, because the
denominator `len(test_measure_predict['pm_measurement'])` counts the NaN
row, while the claim's row-wise exclusion from both numerator and
denominator would give 100. -/
theorem fac2_denominator_counts_nan_rows :
    fac2 [(some 1, some 1), (none, some 1)] = 50 ∧
    fac2_rowExcluded [(some 1, some 1), (none, some 1)] = 100 ∧
    fac2 [(some 1, some 1), (none, some 1)] ≠
      fac2_rowExcluded [(some 1, some 1), (none, some 1)] := by
  refine ⟨?_, ?_, ?_⟩ <;>
    norm_num [fac2, fac2_rowExcluded, fac2keep, validPair, List.filter]

/-- The maximum of a round's candidate scores is one of the scores. -/
theorem listMax_mem_map_cons (score : List ℕ → ℚ) (chosen : List ℕ) (f : ℕ) (fs : List ℕ) :
    listMax (score (chosen ++ [f])) (fs.map fun g => score (chosen ++ [g])) ∈
      (f :: fs).map fun g => score (chosen ++ [g]) := by
  rw [List.map_cons]
  rcases listMax_mem (fs.map fun g => score (chosen ++ [g])) (score (chosen ++ [f])) with h | h
  · rw [h]; exact List.mem_cons_self _ _
  · exact List.mem_cons_of_mem _ h

/-- Invariant of the greedy loop: if the entering `r2prev` is below the
score of every one-feature extension of `chosen`, the trace of `r2prev`
values the loop assigns is non-decreasing (assuming the score oracle is
monotone under appending a feature). -/
theorem fitGo_trace_chain (score : List ℕ → ℚ)
    (hmono : ∀ (l : List ℕ) (f : ℕ), score l ≤ score (l ++ [f])) :
    ∀ (fuel : ℕ) (ftt chosen : List ℕ) (r2prev : ℚ),
      (∀ f : ℕ, r2prev ≤ score (chosen ++ [f])) →
      List.Chain' (· ≤ ·) (r2prev :: (fitGo score fuel ftt chosen r2prev).1) := by
  intro fuel
  induction fuel with
  | zero =>
    intro ftt chosen r2prev _
    cases ftt with
    | nil => simp [fitGo]
    | cons f fs => simp [fitGo]
  | succ fuel ih =>
    intro ftt chosen r2prev hle
    cases ftt with
    | nil => simp [fitGo]
    | cons f fs =>
      have hprev : r2prev ≤ listMax (score (chosen ++ [f])) (fs.map fun g => score (chosen ++ [g])) :=
        le_trans (hle f) (self_le_listMax _ _)
      have hxval : score (chosen ++ [(f :: fs).getD
          (idxOfFirst (listMax (score (chosen ++ [f])) (fs.map fun g => score (chosen ++ [g])))
            ((f :: fs).map fun g => score (chosen ++ [g]))) 0]) =
          listMax (score (chosen ++ [f])) (fs.map fun g => score (chosen ++ [g])) :=
        idxOfFirst_map_spec _ _ (f :: fs) (listMax_mem_map_cons score chosen f fs)
      simp only [fitGo]
      split
      · exact List.chain'_cons.mpr ⟨hprev,
          ih _ _ _ (fun g => le_trans (le_of_eq hxval.symm) (hmono _ g))⟩
      · exact List.chain'_cons.mpr ⟨hprev, List.chain'_singleton _⟩

/-- On a successful exit the chosen feature list is strictly shorter than
`chosen_features` plus the remaining candidates at entry: the exit round
still has a nonempty `features_to_test`. -/
theorem fitGo_ok_length (score : List ℕ → ℚ) :
    ∀ (fuel : ℕ) (ftt chosen : List ℕ) (r2prev : ℚ) (c : List ℕ) (r2 : ℚ),
      (fitGo score fuel ftt chosen r2prev).2 = Except.ok (c, r2) →
      c.length + 1 ≤ chosen.length + ftt.length := by
  intro fuel
  induction fuel with
  | zero =>
    intro ftt chosen r2prev c r2 h
    cases ftt <;> simp [fitGo] at h
  | succ fuel ih =>
    intro ftt chosen r2prev c r2 h
    cases ftt with
    | nil => simp [fitGo] at h
    | cons f fs =>
      have hidx : idxOfFirst (listMax (score (chosen ++ [f])) (fs.map fun g => score (chosen ++ [g])))
          ((f :: fs).map fun g => score (chosen ++ [g])) < (f :: fs).length := by
        have h1 := idxOfFirst_lt_length _ _ (listMax_mem_map_cons score chosen f fs)
        rwa [List.length_map] at h1
      simp only [fitGo] at h
      split at h
      · have h2 := ih _ _ _ _ _ h
        have h3 := List.length_eraseIdx_add_one hidx
        simp only [List.length_append, List.length_cons, List.length_nil] at h2 h3 ⊢
        omega
      · have h2 : Except.ok (chosen, listMax (score (chosen ++ [f]))
            (fs.map fun g => score (chosen ++ [g]))) = Except.ok (c, r2) := h
        injection h2 with h3
        have h4 : chosen = c := congrArg Prod.fst h3
        simp [← h4, List.length_cons]

/-- A model that `Regressor.fit` returns successfully keeps the training
width in `total_features` and chose strictly fewer features than that
width (otherwise the loop would have re-entered and raised). -/
theorem Regressor_fit_ok (score : List ℕ → ℚ) (lrFit : List ℕ → List ℚ → ℚ)
    (total : ℕ) (m : RegModel) (h : Regressor_fit score lrFit total = Except.ok m) :
    m.total_features = total ∧ m.features.length < total := by
  unfold Regressor_fit at h
  rcases hE : (fitGo score total (List.range total) [] 0).2 with e | ⟨chosen, r2⟩
  · rw [hE] at h
    exact absurd h (by simp)
  · rw [hE] at h
    simp only [Except.ok.injEq] at h
    have hlen := fitGo_ok_length score total (List.range total) [] 0 chosen r2 hE
    rw [← h]
    refine ⟨rfl, ?_⟩
    simpa [List.length_range] using hlen

/-- C8: during a greedy forward-selection fit the successive values of
`r2prev` (starting from its initialization `0.0`) form a non-decreasing
sequence, under the premise that the in-sample R² of a linear fit is
monotone non-decreasing in the feature set — stated as monotonicity
under appending one feature plus non-negativity of every one-feature
fit's R² (the R² of the empty model, the implicit start of the chain,
is 0). -/
theorem fit_r2prev_monotone (score : List ℕ → ℚ)
    (hmono : ∀ (l : List ℕ) (f : ℕ), score l ≤ score (l ++ [f]))
    (hpos : ∀ f : ℕ, 0 ≤ score [f]) (total : ℕ) :
    List.Chain' (· ≤ ·) ((0:ℚ) :: (fitGo score total (List.range total) [] 0).1) :=
  fitGo_trace_chain score hmono total (List.range total) [] 0
    (fun f => by simpa using hpos f)

/-- Witness for C8: the monotone oracle `l ↦ |l| / 100` on two features
satisfies both premises, and the r2prev trace it produces is
non-decreasing. -/
theorem fit_r2prev_monotone_witness :
    List.Chain' (· ≤ ·) ((0:ℚ) :: (fitGo (fun l => (l.length : ℚ) / 100) 2 (List.range 2) [] 0).1) :=
  fit_r2prev_monotone (fun l => (l.length : ℚ) / 100)
    (fun l f => by
      show (l.length : ℚ) / 100 ≤ ((l ++ [f]).length : ℚ) / 100
      have h : (((l ++ [f]).length : ℚ)) = (l.length : ℚ) + 1 := by
        simp [List.length_append]
      rw [h]
      have h100 : (0:ℚ) < 100 := by norm_num
      rw [div_le_div_iff_of_pos_right h100]
      linarith)
    (fun f => by show (0:ℚ) ≤ ([f].length : ℚ) / 100; norm_num)
    2

/-- C5: for every model a successful greedy fit produces, `predict` and
`score` on an `X` whose column count equals the original full feature
count first project `X` onto the chosen features' column indices before
calling the underlying linear model, and on an `X` whose column count
equals the number of chosen features use `X` unprojected; in all four
cases the result is the underlying linear model applied to the
chosen-feature columns (for `score`, its R² against `y` on those
columns).  The two cases never collide: a fitted model always has fewer
chosen features than `total_features`. -/
theorem Regressor_predict_projection (score : List ℕ → ℚ) (lrFit : List ℕ → List ℚ → ℚ)
    (total : ℕ) (m : RegModel) (hm : Regressor_fit score lrFit total = Except.ok m)
    (X : Mat) (y : List ℚ) :
    (X.ncols = m.total_features →
      m.predict X = X.rows.map fun row => m.regressionModel (projectRow m.features row)) ∧
    (X.ncols = m.features.length →
      m.predict X = X.rows.map m.regressionModel) ∧
    (X.ncols = m.total_features →
      m.score X y =
        r2score y (X.rows.map fun row => m.regressionModel (projectRow m.features row))) ∧
    (X.ncols = m.features.length →
      m.score X y = r2score y (X.rows.map m.regressionModel)) := by
  obtain ⟨htot, hlt⟩ := Regressor_fit_ok score lrFit total m hm
  have hne : X.ncols = m.features.length → X.ncols ≠ m.total_features := by
    intro hX
    rw [hX, htot]
    exact ne_of_lt hlt
  refine ⟨?_, ?_, ?_, ?_⟩
  · intro hX
    rw [RegModel.predict, if_pos hX]
    simp [List.map_map, Function.comp]
  · intro hX
    rw [RegModel.predict, if_neg (hne hX)]
  · intro hX
    rw [RegModel.score, if_pos hX, List.map_map]
    rfl
  · intro hX
    rw [RegModel.score, if_neg (hne hX)]

/-- Witness for C5: the model fit on the three-feature scenario oracle
(chosen features `[0, 1]`, predictor summing the projected row) predicts
`[30, 3]` both from the full-width rows `[[10, 20, 30], [1, 2, 3]]`
(projected to the first two columns) and from the pre-sliced rows
`[[10, 20], [1, 2]]`, and both `score` call paths give R² = 1 against
`y = [30, 3]`. -/
theorem Regressor_predict_projection_witness :
    RegModel.predict ⟨3, [0, 1], lrSum [0, 1]⟩ ⟨[[10, 20, 30], [1, 2, 3]], 3⟩ = [30, 3] ∧
    RegModel.predict ⟨3, [0, 1], lrSum [0, 1]⟩ ⟨[[10, 20], [1, 2]], 2⟩ = [30, 3] ∧
    RegModel.score ⟨3, [0, 1], lrSum [0, 1]⟩ ⟨[[10, 20, 30], [1, 2, 3]], 3⟩ [30, 3] = 1 ∧
    RegModel.score ⟨3, [0, 1], lrSum [0, 1]⟩ ⟨[[10, 20], [1, 2]], 2⟩ [30, 3] = 1 := by
  have hm : Regressor_fit oracleC4 lrSum 3 = Except.ok ⟨3, [0, 1], lrSum [0, 1]⟩ := by
    unfold Regressor_fit
    rw [show (fitGo oracleC4 3 (List.range 3) [] 0).2 = Except.ok ([0, 1], 53/100) from by
      rw [fitGo_oracleC4_eval]]
  have h := Regressor_predict_projection oracleC4 lrSum 3 ⟨3, [0, 1], lrSum [0, 1]⟩ hm
  refine ⟨?_, ?_, ?_, ?_⟩
  · exact ((h ⟨[[10, 20, 30], [1, 2, 3]], 3⟩ [30, 3]).1 rfl).trans
      (by norm_num [projectRow, lrSum])
  · exact ((h ⟨[[10, 20], [1, 2]], 2⟩ [30, 3]).2.1 rfl).trans (by norm_num [lrSum])
  · exact ((h ⟨[[10, 20, 30], [1, 2, 3]], 3⟩ [30, 3]).2.2.1 rfl).trans
      (by norm_num [r2score, mean, projectRow, lrSum, List.zipWith])
  · exact ((h ⟨[[10, 20], [1, 2]], 2⟩ [30, 3]).2.2.2 rfl).trans
      (by norm_num [r2score, mean, lrSum, List.zipWith])

/-- C3 (amended): if the wall-clock budget is at most 0 (so no candidate
completes, elapsed readings being non-negative), the fold evaluation
fails — with the AttributeError on the `None` best model, since the code
defines no `NoCandidateError`. -/
theorem randomSearchFold_zero_budget {M : Type} (refitFlag : Bool) (maxtime : ℚ)
    (trace : List (ℚ × Candidate M)) (refitted : M → M) (testMetrics : M → ℚ × ℚ)
    (hmax : maxtime ≤ 0) (hclock : ∀ p ∈ trace, 0 ≤ p.1) :
    randomSearchFold refitFlag maxtime trace refitted testMetrics =
      Except.error PyError.attributeErrorNone := by
  have hdone : evaluatedWithin maxtime trace = [] := by
    cases trace with
    | nil => rfl
    | cons p ps =>
      have hp : ¬ (p.1 < maxtime) :=
        not_lt.mpr (le_trans hmax (hclock p (List.mem_cons_self p ps)))
      simp [evaluatedWithin, List.takeWhile_cons, hp]
  simp [randomSearchFold, hdone, searchLoop]

/-- Witness for C3's amended theorem: a zero budget with one prospective
candidate at elapsed time 0 fails with the `None`-model error. -/
theorem randomSearchFold_zero_budget_witness :
    randomSearchFold (M := Unit) true 0 [((0:ℚ), ⟨(), 5⟩)] id (fun _ => (1, 1)) =
      Except.error PyError.attributeErrorNone :=
  randomSearchFold_zero_budget true 0 [((0:ℚ), ⟨(), 5⟩)] id (fun _ => (1, 1))
    le_rfl
    (by
      intro p hp
      simp only [List.mem_singleton] at hp
      rw [hp])

/-- The selection fold keeps `bestModel = None` and `bestScore = 1000000`
across any candidate list whose scores are all at least the sentinel. -/
theorem searchLoop_go_none {M : Type} :
    ∀ (l : List (Candidate M)) (n : ℕ), (∀ c ∈ l, 1000000 ≤ c.score) →
      List.foldl searchStep ((none : Option M), (1000000 : ℚ), n) l =
        (none, 1000000, n + l.length) := by
  intro l
  induction l with
  | nil => intro n _; simp
  | cons c cs ih =>
    intro n h
    have hc : ¬ (c.score < 1000000) := not_lt.mpr (h c (List.mem_cons_self c cs))
    rw [List.foldl_cons,
      show searchStep ((none : Option M), (1000000:ℚ), n) c = (none, 1000000, n + 1) from by
        simp [searchStep, hc],
      ih (n + 1) (fun d hd => h d (List.mem_cons_of_mem c hd))]
    simp [List.length_cons]
    omega

/-- C10: the search initializes its best score to the finite sentinel
1000000 and keeps a candidate only on a strictly smaller validation
RMSE, so when every evaluated candidate scores at least 1000000 — even
candidates that completed within the budget — no candidate is ever
selected (`bestModel` stays `None`) and the fold evaluation fails with
the AttributeError on `None` instead of returning test metrics. -/
theorem randomSearchFold_sentinel {M : Type} (refitFlag : Bool) (maxtime : ℚ)
    (trace : List (ℚ × Candidate M)) (refitted : M → M) (testMetrics : M → ℚ × ℚ)
    (h : ∀ c ∈ evaluatedWithin maxtime trace, 1000000 ≤ c.score) :
    (searchLoop (evaluatedWithin maxtime trace)).1 = none ∧
    randomSearchFold refitFlag maxtime trace refitted testMetrics =
      Except.error PyError.attributeErrorNone := by
  have h1 : searchLoop (evaluatedWithin maxtime trace) =
      (none, 1000000, 0 + (evaluatedWithin maxtime trace).length) :=
    searchLoop_go_none _ 0 h
  constructor
  · rw [h1]
  · simp [randomSearchFold, h1]

/-- Witness for C10: one candidate completes within the budget with
validation RMSE exactly 1000000, is not kept (not strictly below the
sentinel), and the fold fails. -/
theorem randomSearchFold_sentinel_witness :
    (searchLoop (evaluatedWithin (M := Unit) 1 [((0:ℚ), ⟨(), 1000000⟩)])).1 = none ∧
    randomSearchFold (M := Unit) false 1 [((0:ℚ), ⟨(), 1000000⟩)] id (fun _ => (0, 0)) =
      Except.error PyError.attributeErrorNone :=
  randomSearchFold_sentinel false 1 [((0:ℚ), ⟨(), 1000000⟩)] id (fun _ => (0, 0))
    (by
      intro c hc
      have he : evaluatedWithin (M := Unit) 1 [((0:ℚ), ⟨(), 1000000⟩)] = [⟨(), 1000000⟩] := by
        norm_num [evaluatedWithin, List.takeWhile]
      rw [he] at hc
      simp only [List.mem_singleton] at hc
      rw [hc])

/-- Rows with a missing half never contribute to the error series. -/
theorem error_model_filter (rows : List (Option ℚ × Option ℚ)) :
    error_model rows = error_model (rows.filter validPair) := by
  induction rows with
  | nil => rfl
  | cons r rs ih =>
    obtain ⟨mo, po⟩ := r
    cases mo <;> cases po <;>
      simp [error_model, validPair, List.filterMap_cons, List.filter_cons] <;>
      simpa [error_model] using ih

/-- A row passing the factor-of-2 filter has both halves present. -/
theorem fac2keep_implies_valid (r : Option ℚ × Option ℚ)
    (h : fac2keep r.1 r.2 = true) : validPair r = true := by
  obtain ⟨mo, po⟩ := r
  cases mo <;> cases po <;> simp_all [fac2keep, validPair]

/-- The factor-of-2 numerator only counts rows with both halves present. -/
theorem fac2_filter_valid (rows : List (Option ℚ × Option ℚ)) :
    (rows.filter fun r => fac2keep r.1 r.2) =
      ((rows.filter validPair).filter fun r => fac2keep r.1 r.2) := by
  rw [List.filter_filter]
  refine List.filter_congr ?_
  intro a _
  cases hk : fac2keep a.1 a.2
  · simp
  · simp [fac2keep_implies_valid a hk]

/-- C9 (amended): NaN measurement-vs-prediction rows are excluded
row-wise from the RMSE computation and from the factor-of-2 numerator,
but the factor-of-2 denominator counts every merged row, NaN rows
included. -/
theorem nan_rows_excluded (rows : List (Option ℚ × Option ℚ)) :
    error_model rows = error_model (rows.filter validPair) ∧
    rmseSq rows = rmseSq (rows.filter validPair) ∧
    (rows.filter fun r => fac2keep r.1 r.2) =
      ((rows.filter validPair).filter fun r => fac2keep r.1 r.2) ∧
    fac2 rows = ((rows.filter fun r => fac2keep r.1 r.2).length : ℚ) /
      (rows.length : ℚ) * 100 :=
  ⟨error_model_filter rows,
    by rw [rmseSq, error_model_filter rows, rmseSq],
    fac2_filter_valid rows, rfl⟩

/-- C7: a row with positive true value `m` and positive prediction `p`
passes the factor-of-2 filter exactly when the prediction lies within
`[m/2, 2m]`, and on predictions `[1, 2, 4, 10]` against true values
`[1, 2, 1, 10]` exactly 3 of the 4 rows qualify, giving FAC2 = 75. -/
theorem fac2_within_factor_two (m p : ℚ) (_hm : 0 < m) (hp : 0 < p) :
    (fac2keep (some m) (some p) = true ↔ (m / 2 ≤ p ∧ p ≤ 2 * m)) ∧
    fac2 [(some 1, some 1), (some 2, some 2), (some 1, some 4), (some 10, some 10)] = 75 := by
  constructor
  · have hp0 : p ≠ 0 := ne_of_gt hp
    have h1 : (1:ℚ)/2 ≤ m / p ↔ p ≤ 2 * m := by
      rw [le_div_iff₀ hp]
      constructor <;> intro h <;> linarith
    have h2 : m / p ≤ 2 ↔ m / 2 ≤ p := by
      rw [div_le_iff₀ hp]
      constructor <;> intro h <;> linarith
    have hiff : ∀ (c : Prop) (_ : Decidable c), ((if c then true else false) = true) ↔ c := by
      intro c inst
      split
      · simp [*]
      · simp [*]
    simp only [fac2keep, hp0, ne_eq, not_false_eq_true, true_and]
    rw [hiff, h1, h2]
    exact and_comm
  · norm_num [fac2, fac2keep, List.filter]

/-- Witness for C7 at true value 1 and prediction 1. -/
theorem fac2_within_factor_two_witness :
    (fac2keep (some 1) (some 1) = true ↔ ((1:ℚ) / 2 ≤ 1 ∧ (1:ℚ) ≤ 2 * 1)) ∧
    fac2 [(some 1, some 1), (some 2, some 2), (some 1, some 4), (some 10, some 10)] = 75 :=
  fac2_within_factor_two 1 1 one_pos one_pos
